import Mathlib

/-
Verification development for the kserve sklearnserver model wrapper
(src/python/sklearnserver/sklearnserver/model.py) and the request
batching engine described by the design specification (the engine code
itself lives outside this source tree; only its end-to-end test
src/test/e2e/batcher/test_raw_batcher.py is present, so the engine is
modelled from the specification text).

Part 1 embeds model.py: the SKLearnModel class with its load and
predict operations.  Filesystem access (os.listdir, os.path.isfile),
the environment (os.environ) and the deserialized sklearn estimator are
passed in explicitly as data.
-/

namespace SKLearn

/-- MODEL_EXTENSIONS from model.py: the admissible serialized-model file
suffixes. -/
def MODEL_EXTENSIONS : List String := [".joblib", ".pkl", ".pickle"]

/-- ENV_PREDICT_PROBA from model.py: the environment variable that
switches prediction to predict_proba. -/
def ENV_PREDICT_PROBA : String := "PREDICT_PROBA"

/-- One entry of a directory listing, as seen by os.listdir combined
with the os.path.isfile check in SKLearnModel.load. -/
structure DirEntry where
  name : String
  isFile : Bool
deriving DecidableEq, Repr

/-- The unified error taxonomy of the sklearn server: ModelMissingError
and the more-than-one-model RuntimeError are raised by load at startup;
KeyError and InferenceError are raised by predict per request. -/
inductive SKError where
  | modelMissing (path : String)
  | modelAmbiguous (files : List String)
  | keyError (key : String)
  | inferenceError (msg : String)
deriving DecidableEq, Repr

/-- Python str.endswith, modelled on the character sequences of the two
strings: the candidate suffix must be a suffix of the string. -/
def strEndsWith (s suffix : String) : Bool :=
  List.isSuffixOf suffix.data s.data

/-- Python str.lower, modelled characterwise; the ASCII lowering of
Char.toLower is all the PREDICT_PROBA comparison exercises. -/
def strToLower (s : String) : String :=
  String.mk (s.data.map Char.toLower)

/-- The file-selection loop of SKLearnModel.load: keep the names of the
regular files of the directory whose name ends with one of
MODEL_EXTENSIONS (Python file.endswith on a tuple of suffixes). -/
def modelFiles (entries : List DirEntry) : List String :=
  (entries.filter
    (fun e => e.isFile && MODEL_EXTENSIONS.any (fun ext => strEndsWith e.name ext))).map
    (fun e => e.name)

/-- The black-box deserialized estimator: a batch predict call and,
when the object has the attribute, a batch predict_proba call.  Either
call may fail with a Python exception, rendered as its message string. -/
structure SKModel (α β : Type) where
  predictCall : List α → Except String (List β)
  predictProbaCall : Option (List α → Except String (List β))

/-- Mutable state of an SKLearnModel instance: after __init__ the model
slot is empty and ready is false. -/
structure SKLearnState (α β : Type) where
  name : String
  modelDir : String
  ready : Bool
  model : Option (SKModel α β)

/-- SKLearnModel.__init__: stores name and model_dir and sets ready to
False; the _model attribute is not yet assigned. -/
def SKLearnModel.init (α β : Type) (name modelDir : String) : SKLearnState α β :=
  { name := name, modelDir := modelDir, ready := false, model := none }

/-- SKLearnModel.load.  modelPath is the local path returned by
Storage.download(self.model_dir); entries is the listing of that
directory; loader stands for joblib.load.  The result pairs the state
after the call with the Python outcome: the returned boolean or the
raised error.  Both raise points precede every assignment to self, so
on error the state is returned untouched, exactly as in the source. -/
def SKLearnModel.load {α β : Type} (modelPath : String) (entries : List DirEntry)
    (loader : String → SKModel α β) (st : SKLearnState α β) :
    SKLearnState α β × Except SKError Bool :=
  match modelFiles entries with
  | [] => (st, Except.error (SKError.modelMissing modelPath))
  | [f] =>
      let st2 := { st with model := some (loader f), ready := true }
      (st2, Except.ok st2.ready)
  | _ :: _ :: _ => (st, Except.error (SKError.modelAmbiguous (modelFiles entries)))

/-- The spec wording of an admissible model file: a regular file whose
name ends in .joblib, .pkl, or .pickle (stated independently of the
MODEL_EXTENSIONS tuple so that load can be checked against it). -/
def isModelFileSpec (e : DirEntry) : Bool :=
  e.isFile && (strEndsWith e.name ".joblib" || strEndsWith e.name ".pkl"
    || strEndsWith e.name ".pickle")

/-- Lookup in the environment dictionary with a default, matching
os.environ.get(key, default). -/
def envGet (env : List (String × String)) (key dflt : String) : String :=
  match env.lookup key with
  | some v => v
  | none => dflt

/-- The guarded call inside the try block of SKLearnModel.predict: if
the PREDICT_PROBA environment variable, lowercased, equals true and the
model has a predict_proba attribute, call predict_proba, else call
predict. -/
def modelCall {α β : Type} (env : List (String × String)) (m : SKModel α β)
    (instances : List α) : Except String (List β) :=
  if strToLower (envGet env ENV_PREDICT_PROBA "false") == "true"
      && m.predictProbaCall.isSome then
    (m.predictProbaCall.getD m.predictCall) instances
  else
    m.predictCall instances

/-- SKLearnModel.predict.  The payload is the request dictionary whose
values are instance lists; the lookup of the instances key happens
before the try block, so a missing key raises KeyError unwrapped.
Inside the try block any exception of the estimator call is re-raised
as InferenceError carrying str(e); on success the returned dictionary
has the single key predictions holding the estimator output. -/
def SKLearnModel.predict {α β : Type} (env : List (String × String)) (m : SKModel α β)
    (payload : List (String × List α)) : Except SKError (List (String × List β)) :=
  match payload.lookup "instances" with
  | none => Except.error (SKError.keyError "instances")
  | some instances =>
      match modelCall env m instances with
      | Except.ok result => Except.ok [("predictions", result)]
      | Except.error e => Except.error (SKError.inferenceError e)

/-- The envelope step of predict: a successful estimator call becomes
the predictions dictionary, a failed one the InferenceError. -/
def respond {β : Type} (r : Except String (List β)) :
    Except SKError (List (String × List β)) :=
  match r with
  | Except.ok result => Except.ok [("predictions", result)]
  | Except.error e => Except.error (SKError.inferenceError e)

/-- A concrete estimator used for the concrete evaluations below: the
identity on natural-number instances, with no predict_proba. -/
def natIdModel : SKModel Nat Nat :=
  { predictCall := fun xs => Except.ok xs, predictProbaCall := none }

/-- A concrete estimator whose predict call always fails. -/
def natFailModel : SKModel Nat Nat :=
  { predictCall := fun _ => Except.error "boom", predictProbaCall := none }

theorem modelFiles_length_eq_countP (entries : List DirEntry) :
    (modelFiles entries).length = entries.countP (fun e => isModelFileSpec e) := by
  have hp : (fun e : DirEntry =>
      e.isFile && MODEL_EXTENSIONS.any (fun ext => strEndsWith e.name ext))
      = fun e => isModelFileSpec e := by
    funext e
    simp [SKLearn.MODEL_EXTENSIONS, isModelFileSpec, Bool.or_assoc]
  rw [modelFiles, List.length_map, hp, List.countP_eq_length_filter]

theorem predict_eq_respond {α β : Type} (env : List (String × String))
    (m : SKModel α β) (payload : List (String × List α)) (instances : List α)
    (hinst : payload.lookup "instances" = some instances) :
    SKLearnModel.predict env m payload = respond (modelCall env m instances) := by
  simp only [SKLearnModel.predict, hinst]
  cases h : modelCall env m instances <;> simp only [respond, h]

/-- A concrete estimator with a predict_proba attribute, adding 100 to
each instance there. -/
def natProbaModel : SKModel Nat Nat :=
  { predictCall := fun xs => Except.ok xs,
    predictProbaCall := some (fun xs => Except.ok (xs.map (fun x => x + 100))) }

/-- C3: load succeeds returning true with ready set to true exactly
when the model directory holds exactly one regular file ending in
.joblib, .pkl or .pickle; it raises ModelMissingError exactly when
there is no such file and the model-ambiguous RuntimeError exactly when
there is more than one; and predict never raises either of those two
errors, so they are startup failures, not per-request ones. -/
theorem load_model_file_count_contract {α β : Type} (modelPath : String)
    (entries : List DirEntry) (loader : String → SKModel α β)
    (st : SKLearnState α β) :
    ((SKLearnModel.load modelPath entries loader st).2 = Except.ok true
        ∧ (SKLearnModel.load modelPath entries loader st).1.ready = true
      ↔ entries.countP (fun e => isModelFileSpec e) = 1)
    ∧ ((SKLearnModel.load modelPath entries loader st).2
        = Except.error (SKError.modelMissing modelPath)
      ↔ entries.countP (fun e => isModelFileSpec e) = 0)
    ∧ ((SKLearnModel.load modelPath entries loader st).2
        = Except.error (SKError.modelAmbiguous (modelFiles entries))
      ↔ 1 < entries.countP (fun e => isModelFileSpec e))
    ∧ (∀ (env : List (String × String)) (m : SKModel α β)
        (payload : List (String × List α)) (path2 : String)
        (files2 : List String),
        SKLearnModel.predict env m payload
          ≠ Except.error (SKError.modelMissing path2)
        ∧ SKLearnModel.predict env m payload
          ≠ Except.error (SKError.modelAmbiguous files2)) := by
  rw [← modelFiles_length_eq_countP]
  refine ⟨?_, ?_, ?_, ?_⟩
  · rcases h : modelFiles entries with _ | ⟨f, _ | ⟨g, fs⟩⟩ <;>
      simp [SKLearnModel.load, h]
  · rcases h : modelFiles entries with _ | ⟨f, _ | ⟨g, fs⟩⟩ <;>
      simp [SKLearnModel.load, h]
  · rcases h : modelFiles entries with _ | ⟨f, _ | ⟨g, fs⟩⟩ <;>
      simp [SKLearnModel.load, h]
  · intro env m payload path2 files2
    rw [SKLearnModel.predict]
    cases payload.lookup "instances" with
    | none => simp
    | some instances =>
        cases h : modelCall env m instances <;> simp [h]

/-- Witness for C3 at a directory with exactly one .joblib file. -/
theorem load_model_file_count_contract_witness :
    (SKLearnModel.load "m" [DirEntry.mk "model.joblib" true]
        (fun _ => natIdModel) (SKLearnModel.init Nat Nat "sk" "dir")).2
      = Except.ok true
    ∧ (SKLearnModel.load "m" [DirEntry.mk "model.joblib" true]
        (fun _ => natIdModel) (SKLearnModel.init Nat Nat "sk" "dir")).1.ready
      = true :=
  (load_model_file_count_contract "m" [DirEntry.mk "model.joblib" true]
    (fun _ => natIdModel) (SKLearnModel.init Nat Nat "sk" "dir")).1.mpr (by decide)

/-- C9: a failing load leaves the state exactly as the constructor left
it, ready still false and no model assigned, and ready becomes true
only together with a successfully loaded single model file. -/
theorem load_failure_preserves_state {α β : Type} (modelPath : String)
    (entries : List DirEntry) (loader : String → SKModel α β)
    (st : SKLearnState α β) (hready : st.ready = false)
    (hmodel : st.model = none) :
    (∀ e, (SKLearnModel.load modelPath entries loader st).2 = Except.error e →
        (SKLearnModel.load modelPath entries loader st).1 = st
        ∧ (SKLearnModel.load modelPath entries loader st).1.ready = false
        ∧ (SKLearnModel.load modelPath entries loader st).1.model = none)
    ∧ ((SKLearnModel.load modelPath entries loader st).1.ready = true →
        ∃ f, modelFiles entries = [f]
          ∧ (SKLearnModel.load modelPath entries loader st).1.model
            = some (loader f)
          ∧ (SKLearnModel.load modelPath entries loader st).2
            = Except.ok true) := by
  rcases h : modelFiles entries with _ | ⟨f, _ | ⟨g, fs⟩⟩ <;>
    simp [SKLearnModel.load, h, hready, hmodel]

/-- Witness for C9 at an empty model directory. -/
theorem load_failure_preserves_state_witness :
    (SKLearnModel.load "m" [] (fun _ => natIdModel)
        (SKLearnModel.init Nat Nat "sk" "dir")).1
      = SKLearnModel.init Nat Nat "sk" "dir"
    ∧ (SKLearnModel.load "m" [] (fun _ => natIdModel)
        (SKLearnModel.init Nat Nat "sk" "dir")).1.ready = false
    ∧ (SKLearnModel.load "m" [] (fun _ => natIdModel)
        (SKLearnModel.init Nat Nat "sk" "dir")).1.model = none :=
  (load_failure_preserves_state "m" [] (fun _ => natIdModel)
      (SKLearnModel.init Nat Nat "sk" "dir") rfl rfl).1
    (SKError.modelMissing "m") rfl

/-- C4: whenever the selected estimator call fails with message msg,
predict fails with InferenceError msg and with nothing else. -/
theorem predict_wraps_downstream_failure {α β : Type}
    (env : List (String × String)) (m : SKModel α β)
    (payload : List (String × List α)) (instances : List α) (msg : String)
    (hinst : payload.lookup "instances" = some instances)
    (hfail : modelCall env m instances = Except.error msg) :
    SKLearnModel.predict env m payload
      = Except.error (SKError.inferenceError msg) := by
  rw [predict_eq_respond env m payload instances hinst, hfail]
  rfl

/-- Witness for C4 at an always-failing estimator. -/
theorem predict_wraps_downstream_failure_witness :
    SKLearnModel.predict [] natFailModel [("instances", [1])]
      = Except.error (SKError.inferenceError "boom") :=
  predict_wraps_downstream_failure [] natFailModel [("instances", [1])]
    [1] "boom" rfl rfl

/-- C10: a payload without the instances key makes predict fail with a
KeyError, which is never equal to an InferenceError envelope. -/
theorem predict_missing_instances_keyError {α β : Type}
    (env : List (String × String)) (m : SKModel α β)
    (payload : List (String × List α))
    (hmiss : payload.lookup "instances" = none) :
    SKLearnModel.predict env m payload
      = Except.error (SKError.keyError "instances")
    ∧ ∀ msg, (Except.error (SKError.keyError "instances")
        : Except SKError (List (String × List β)))
        ≠ Except.error (SKError.inferenceError msg) := by
  constructor
  · rw [SKLearnModel.predict, hmiss]
  · intro msg
    simp

/-- Witness for C10 at a payload holding only an inputs key. -/
theorem predict_missing_instances_keyError_witness :
    SKLearnModel.predict [] natIdModel [("inputs", [1])]
      = Except.error (SKError.keyError "instances")
    ∧ ∀ msg, (Except.error (SKError.keyError "instances")
        : Except SKError (List (String × List Nat)))
        ≠ Except.error (SKError.inferenceError msg) :=
  predict_missing_instances_keyError [] natIdModel [("inputs", [1])] rfl

/-- C8: predict returns the predict_proba output exactly when the
PREDICT_PROBA environment variable lowercases to true and the model has
a predict_proba attribute, and the plain predict output otherwise. -/
theorem predict_proba_env_selection {α β : Type}
    (env : List (String × String)) (m : SKModel α β)
    (payload : List (String × List α)) (instances : List α)
    (hinst : payload.lookup "instances" = some instances) :
    (∀ pf, m.predictProbaCall = some pf →
        strToLower (envGet env ENV_PREDICT_PROBA "false") = "true" →
        SKLearnModel.predict env m payload = respond (pf instances))
    ∧ ((strToLower (envGet env ENV_PREDICT_PROBA "false") ≠ "true"
          ∨ m.predictProbaCall = none) →
        SKLearnModel.predict env m payload
          = respond (m.predictCall instances)) := by
  rw [predict_eq_respond env m payload instances hinst]
  constructor
  · intro pf hpf henv
    simp [modelCall, hpf, henv]
  · intro h
    rcases h with henv | hnone
    · have hb : (strToLower (envGet env ENV_PREDICT_PROBA "false") == "true")
          = false := by
        simpa using henv
      simp [modelCall, hb]
    · simp [modelCall, hnone]

/-- Witness for C8: the variable set to True (mixed case) with a model
having predict_proba selects predict_proba; unset selects predict. -/
theorem predict_proba_env_selection_witness :
    SKLearnModel.predict [("PREDICT_PROBA", "True")] natProbaModel
        [("instances", [1, 2])]
      = respond (Except.ok ([101, 102] : List Nat))
    ∧ SKLearnModel.predict [] natProbaModel [("instances", [1, 2])]
      = respond (Except.ok ([1, 2] : List Nat)) :=
  ⟨(predict_proba_env_selection [("PREDICT_PROBA", "True")] natProbaModel
      [("instances", [1, 2])] [1, 2] rfl).1
      (fun xs => Except.ok (xs.map (fun x => x + 100))) rfl (by decide),
   (predict_proba_env_selection [] natProbaModel
      [("instances", [1, 2])] [1, 2] rfl).2 (Or.inl (by decide))⟩

/-- C5 counterexample: a successful predict call returns only the
predictions key; the returned envelope carries no batchId field. -/
theorem predict_success_no_batchId_key :
    SKLearnModel.predict [] natIdModel [("instances", [1, 2])]
      = Except.ok [("predictions", [1, 2])]
    ∧ ([("predictions", ([1, 2] : List Nat))].map Prod.fst).contains "batchId"
      = false :=
  ⟨rfl, rfl⟩

/-- C5 as amended: a successful predict returns the envelope whose
single predictions key holds the output of the one estimator call, in
the estimator output order, so for a per-instance estimator position i
of the output corresponds to input instance i; the batchId field is not
part of this envelope. -/
theorem predict_success_predictions_ordered {α β : Type}
    (env : List (String × String)) (m : SKModel α β)
    (payload : List (String × List α)) (instances : List α) (f : α → β)
    (hinst : payload.lookup "instances" = some instances)
    (hcall : modelCall env m instances = Except.ok (instances.map f)) :
    SKLearnModel.predict env m payload
      = Except.ok [("predictions", instances.map f)]
    ∧ (instances.map f).length = instances.length
    ∧ ∀ i : Nat, (instances.map f).get? i = (instances.get? i).map f := by
  refine ⟨?_, List.length_map instances f, fun i => ?_⟩
  · rw [predict_eq_respond env m payload instances hinst, hcall]
    rfl
  · simp

/-- Witness for amended C5 with the identity estimator on two
instances. -/
theorem predict_success_predictions_ordered_witness :
    SKLearnModel.predict [] natIdModel [("instances", [3, 4])]
      = Except.ok [("predictions", [3, 4].map id)]
    ∧ ([3, 4].map (id : Nat → Nat)).length = [3, 4].length
    ∧ ∀ i : Nat, ([3, 4].map (id : Nat → Nat)).get? i
        = ([3, 4].get? i).map id :=
  predict_success_predictions_ordered [] natIdModel [("instances", [3, 4])]
    [3, 4] id rfl rfl

end SKLearn

/-
Part 2: the batching engine.  Its implementation is not in this source
tree (only the end-to-end test test_raw_batcher.py is), so every
definition below is modelled from the specification text, sections 3-5:
a single accumulation point serializes admissions, so a run of the
engine is a sequence of serialized events (admissions and deadline
timer firings) processed one at a time.
-/

namespace Batcher

/-- Modelled from the spec: engine configuration, two immutable values
set at construction time, max_batch_size and max_latency. -/
structure Config where
  maxBatchSize : Nat
  maxLatency : Nat
deriving DecidableEq, Repr

/-- Modelled from the spec: an Item is the unit of work, a caller
payload plus a one-shot result sink; the sink is identified here by a
numeric tag so that deliveries can be traced back to items. -/
structure Item (α : Type) where
  itemId : Nat
  payload : α
deriving DecidableEq, Repr

/-- Modelled from the spec: the terminal outcome delivered to one item,
either the predictor result for that item, or the batch-atomic
InferenceError carrying the downstream error description, or the
BatchResultMismatch protocol failure. -/
inductive Outcome (β : Type) where
  | success (r : β)
  | inferenceError (msg : String)
  | batchResultMismatch
deriving DecidableEq, Repr

/-- Modelled from the spec: one resolved result sink, tagging the item
with the id of the batch it was admitted into and its outcome. -/
structure Delivery (β : Type) where
  itemId : Nat
  batchId : Nat
  outcome : Outcome β
deriving DecidableEq, Repr

/-- Modelled from the spec: the batch currently OPEN for admissions,
holding its id (generated at batch-open time from a monotonic counter)
and its items in arrival order. -/
structure OpenBatch (α : Type) where
  id : Nat
  items : List (Item α)
deriving DecidableEq, Repr

/-- Modelled from the spec: a dispatched batch together with the
deliveries the dispatcher fanned out for it. -/
structure ClosedBatch (α β : Type) where
  id : Nat
  items : List (Item α)
  deliveries : List (Delivery β)
deriving DecidableEq, Repr

/-- Modelled from the spec: the whole engine state, the id counter, the
single open-batch slot and the batches dispatched so far. -/
structure EngineState (α β : Type) where
  nextId : Nat
  current : Option (OpenBatch α)
  closed : List (ClosedBatch α β)
deriving DecidableEq, Repr

/-- Modelled from the spec: the state of a freshly constructed engine:
no batch open, nothing dispatched. -/
def initState (α β : Type) : EngineState α β :=
  { nextId := 0, current := none, closed := [] }

/-- Modelled from the spec: the downstream predictor capability, one
synchronous call mapping the ordered payload collection to an ordered
result collection or an error. -/
def Predictor (α β : Type) : Type :=
  List α → Except String (List β)

/-- Modelled from the spec: the Dispatcher.  One predictor invocation
per closed batch; on success of matching length, result i goes to item
i tagged with the batch id; on length mismatch every item fails with
BatchResultMismatch; on predictor failure every item fails with
InferenceError carrying the downstream error description. -/
def dispatchBatch {α β : Type} (pred : Predictor α β) (b : OpenBatch α) :
    ClosedBatch α β :=
  match pred (b.items.map Item.payload) with
  | Except.ok rs =>
      if rs.length = b.items.length then
        { id := b.id, items := b.items,
          deliveries := (b.items.zip rs).map
            (fun p => { itemId := p.1.itemId, batchId := b.id,
                        outcome := Outcome.success p.2 }) }
      else
        { id := b.id, items := b.items,
          deliveries := b.items.map
            (fun it => { itemId := it.itemId, batchId := b.id,
                         outcome := Outcome.batchResultMismatch }) }
  | Except.error e =>
      { id := b.id, items := b.items,
        deliveries := b.items.map
          (fun it => { itemId := it.itemId, batchId := b.id,
                       outcome := Outcome.inferenceError e }) }

/-- Modelled from the spec: the serialized events reaching the batcher
core: an admission, or the deadline timer of the open batch firing. -/
inductive Event (α : Type) where
  | enqueue (it : Item α)
  | timerFire
deriving DecidableEq, Repr

/-- Modelled from the spec: one serialized step of the Batcher Core.
enqueue opens a batch if none is open (consuming a fresh id), appends
the item, and when the append reaches max_batch_size closes and
dispatches the batch synchronously; the timer closes and dispatches
whatever the open batch holds, and is a no-op when no batch is open, so
an empty batch is never dispatched. -/
def step {α β : Type} (cfg : Config) (pred : Predictor α β)
    (st : EngineState α β) : Event α → EngineState α β
  | Event.enqueue it =>
      let opened : OpenBatch α × Nat :=
        match st.current with
        | some b => ({ id := b.id, items := b.items ++ [it] }, st.nextId)
        | none => ({ id := st.nextId, items := [it] }, st.nextId + 1)
      if opened.1.items.length = cfg.maxBatchSize then
        { nextId := opened.2, current := none,
          closed := st.closed ++ [dispatchBatch pred opened.1] }
      else
        { nextId := opened.2, current := some opened.1, closed := st.closed }
  | Event.timerFire =>
      match st.current with
      | some b =>
          { nextId := st.nextId, current := none,
            closed := st.closed ++ [dispatchBatch pred b] }
      | none => st

/-- Modelled from the spec: a run of the engine, folding the serialized
event sequence through step. -/
def run {α β : Type} (cfg : Config) (pred : Predictor α β)
    (st : EngineState α β) : List (Event α) → EngineState α β
  | [] => st
  | e :: es => run cfg pred (step cfg pred st e) es

/-- Modelled from the spec: the numeric response status the end-to-end
test reads per call, 200 for a success outcome and 500 for a failure
envelope. -/
def responseCode {β : Type} (d : Delivery β) : Nat :=
  match d.outcome with
  | Outcome.success _ => 200
  | Outcome.inferenceError _ => 500
  | Outcome.batchResultMismatch => 500

/-- The item ids admitted by an event sequence, in order. -/
def enqueuedIds {α : Type} (events : List (Event α)) : List Nat :=
  events.filterMap (fun e =>
    match e with
    | Event.enqueue it => some it.itemId
    | Event.timerFire => none)

/-- The item ids held by the open-batch slot. -/
def currentIds {α β : Type} (st : EngineState α β) : List Nat :=
  match st.current with
  | some b => b.items.map Item.itemId
  | none => []

/-- The ids of all batches the engine has opened so far, dispatched
ones first, then the open one when present. -/
def batchIds {α β : Type} (st : EngineState α β) : List Nat :=
  st.closed.map ClosedBatch.id ++ (match st.current with
    | some b => [b.id]
    | none => [])

/-- All item ids currently owned by the engine, those of dispatched
batches in dispatch order followed by those of the open batch. -/
def allItemIds {α β : Type} (st : EngineState α β) : List Nat :=
  (st.closed.map (fun c => c.items.map Item.itemId)).flatten ++ currentIds st

theorem dispatchBatch_id {α β : Type} (pred : Predictor α β) (b : OpenBatch α) :
    (dispatchBatch pred b).id = b.id := by
  unfold dispatchBatch
  cases pred (b.items.map Item.payload) with
  | ok rs =>
      dsimp only
      split <;> rfl
  | error e => rfl

theorem dispatchBatch_items {α β : Type} (pred : Predictor α β) (b : OpenBatch α) :
    (dispatchBatch pred b).items = b.items := by
  unfold dispatchBatch
  cases pred (b.items.map Item.payload) with
  | ok rs =>
      dsimp only
      split <;> rfl
  | error e => rfl

theorem dispatchBatch_delivery_batchId {α β : Type} (pred : Predictor α β)
    (b : OpenBatch α) (d : Delivery β) (hd : d ∈ (dispatchBatch pred b).deliveries) :
    d.batchId = b.id := by
  unfold dispatchBatch at hd
  cases h : pred (b.items.map Item.payload) with
  | ok rs =>
      rw [h] at hd
      dsimp only at hd
      split at hd <;>
        · obtain ⟨x, hx, rfl⟩ := List.mem_map.1 hd
          rfl
  | error e =>
      rw [h] at hd
      obtain ⟨x, hx, rfl⟩ := List.mem_map.1 hd
      rfl

theorem dispatchBatch_delivery_itemIds {α β : Type} (pred : Predictor α β)
    (b : OpenBatch α) :
    (dispatchBatch pred b).deliveries.map Delivery.itemId
      = b.items.map Item.itemId := by
  unfold dispatchBatch
  cases h : pred (b.items.map Item.payload) with
  | ok rs =>
      dsimp only
      split
      · rename_i hlen
        rw [List.map_map]
        have hfst : (b.items.zip rs).map Prod.fst = b.items :=
          List.map_fst_zip b.items rs (le_of_eq hlen.symm)
        calc (b.items.zip rs).map
              (Delivery.itemId ∘ fun p =>
                { itemId := p.1.itemId, batchId := b.id,
                  outcome := Outcome.success p.2 })
            = (b.items.zip rs).map (fun p => p.1.itemId) := rfl
          _ = ((b.items.zip rs).map Prod.fst).map Item.itemId := by
              rw [List.map_map]; rfl
          _ = b.items.map Item.itemId := by rw [hfst]
      · rw [List.map_map]
        rfl
  | error e =>
      dsimp only
      rw [List.map_map]
      rfl

theorem dispatchBatch_error_deliveries {α β : Type} (pred : Predictor α β)
    (b : OpenBatch α) (msg : String)
    (hfail : pred (b.items.map Item.payload) = Except.error msg) :
    (dispatchBatch pred b).deliveries
      = b.items.map (fun it =>
          { itemId := it.itemId, batchId := b.id,
            outcome := Outcome.inferenceError msg }) := by
  unfold dispatchBatch
  rw [hfail]

theorem dispatchBatch_ok_deliveries {α β : Type} (pred : Predictor α β)
    (b : OpenBatch α) (rs : List β)
    (hok : pred (b.items.map Item.payload) = Except.ok rs)
    (hlen : rs.length = b.items.length) :
    (dispatchBatch pred b).deliveries
      = (b.items.zip rs).map (fun p =>
          { itemId := p.1.itemId, batchId := b.id,
            outcome := Outcome.success p.2 }) := by
  unfold dispatchBatch
  rw [hok]
  dsimp only
  rw [if_pos hlen]

/-- Every dispatched batch on record is exactly the dispatcher output
for its id and items: dispatch happens once, at close time. -/
def ClosedInv {α β : Type} (pred : Predictor α β) (st : EngineState α β) : Prop :=
  ∀ b ∈ st.closed, b = dispatchBatch pred { id := b.id, items := b.items }

/-- Batch ids increase strictly in open order and stay below the id
counter. -/
def IdInv {α β : Type} (st : EngineState α β) : Prop :=
  (batchIds st).Pairwise (fun a b => a < b)
  ∧ ∀ i ∈ batchIds st, i < st.nextId

theorem step_closed_shape {α β : Type} (cfg : Config) (pred : Predictor α β)
    (st : EngineState α β) (e : Event α) :
    (step cfg pred st e).closed = st.closed
    ∨ ∃ ob : OpenBatch α,
        (step cfg pred st e).closed = st.closed ++ [dispatchBatch pred ob] := by
  obtain ⟨n, cur, closed⟩ := st
  cases e with
  | enqueue it =>
      cases cur with
      | none =>
          simp only [step]
          split
          · exact Or.inr ⟨_, rfl⟩
          · exact Or.inl rfl
      | some b =>
          simp only [step]
          split
          · exact Or.inr ⟨_, rfl⟩
          · exact Or.inl rfl
  | timerFire =>
      cases cur with
      | none => exact Or.inl rfl
      | some b => exact Or.inr ⟨b, rfl⟩

theorem closedInv_step {α β : Type} (cfg : Config) (pred : Predictor α β)
    (st : EngineState α β) (e : Event α) (h : ClosedInv pred st) :
    ClosedInv pred (step cfg pred st e) := by
  rcases step_closed_shape cfg pred st e with hs | ⟨ob, hs⟩
  · intro b hb
    rw [hs] at hb
    exact h b hb
  · intro b hb
    rw [hs] at hb
    rcases List.mem_append.1 hb with hb2 | hb2
    · exact h b hb2
    · have hb3 := List.mem_singleton.1 hb2
      subst hb3
      rw [dispatchBatch_id, dispatchBatch_items]

theorem closedInv_run {α β : Type} (cfg : Config) (pred : Predictor α β)
    (st : EngineState α β) (events : List (Event α)) (h : ClosedInv pred st) :
    ClosedInv pred (run cfg pred st events) := by
  induction events generalizing st with
  | nil => exact h
  | cons e es ih => exact ih (step cfg pred st e) (closedInv_step cfg pred st e h)

theorem closedInv_init {α β : Type} (pred : Predictor α β) :
    ClosedInv pred (initState α β) := by
  intro b hb
  simp [initState] at hb

theorem step_batchIds_shape {α β : Type} (cfg : Config) (pred : Predictor α β)
    (st : EngineState α β) (e : Event α) :
    (batchIds (step cfg pred st e) = batchIds st
      ∧ (step cfg pred st e).nextId = st.nextId)
    ∨ (batchIds (step cfg pred st e) = batchIds st ++ [st.nextId]
      ∧ (step cfg pred st e).nextId = st.nextId + 1) := by
  obtain ⟨n, cur, closed⟩ := st
  cases e with
  | enqueue it =>
      cases cur with
      | none =>
          simp only [step]
          split
          · refine Or.inr ⟨?_, rfl⟩
            simp [batchIds, dispatchBatch_id]
          · refine Or.inr ⟨?_, rfl⟩
            simp [batchIds]
      | some b =>
          simp only [step]
          split
          · refine Or.inl ⟨?_, rfl⟩
            simp [batchIds, dispatchBatch_id]
          · refine Or.inl ⟨?_, rfl⟩
            simp [batchIds]
  | timerFire =>
      cases cur with
      | none => exact Or.inl ⟨rfl, rfl⟩
      | some b =>
          refine Or.inl ⟨?_, rfl⟩
          simp [step, batchIds, dispatchBatch_id]

theorem idInv_step {α β : Type} (cfg : Config) (pred : Predictor α β)
    (st : EngineState α β) (e : Event α) (h : IdInv st) :
    IdInv (step cfg pred st e) := by
  obtain ⟨hp, hb⟩ := h
  rcases step_batchIds_shape cfg pred st e with ⟨he, hn⟩ | ⟨he, hn⟩
  · constructor
    · rw [he]
      exact hp
    · rw [he, hn]
      exact hb
  · constructor
    · rw [he, List.pairwise_append]
      refine ⟨hp, List.pairwise_singleton _ _, ?_⟩
      intro a ha c hc
      rw [List.mem_singleton] at hc
      subst hc
      exact hb a ha
    · rw [he, hn]
      intro i hi
      rcases List.mem_append.1 hi with hi2 | hi2
      · exact Nat.lt_succ_of_lt (hb i hi2)
      · rw [List.mem_singleton] at hi2
        subst hi2
        exact Nat.lt_succ_self _

theorem idInv_run {α β : Type} (cfg : Config) (pred : Predictor α β)
    (st : EngineState α β) (events : List (Event α)) (h : IdInv st) :
    IdInv (run cfg pred st events) := by
  induction events generalizing st with
  | nil => exact h
  | cons e es ih => exact ih (step cfg pred st e) (idInv_step cfg pred st e h)

theorem idInv_init {α β : Type} : IdInv (initState α β) := by
  constructor
  · simp [batchIds, initState]
  · intro i hi
    simp [batchIds, initState] at hi

theorem enqueuedIds_cons {α : Type} (e : Event α) (es : List (Event α)) :
    enqueuedIds (e :: es) = enqueuedIds [e] ++ enqueuedIds es := by
  cases e <;> simp [enqueuedIds]

theorem step_allItemIds {α β : Type} (cfg : Config) (pred : Predictor α β)
    (st : EngineState α β) (e : Event α) :
    allItemIds (step cfg pred st e) = allItemIds st ++ enqueuedIds [e] := by
  obtain ⟨n, cur, closed⟩ := st
  cases e with
  | enqueue it =>
      cases cur with
      | none =>
          simp only [step]
          split
          · simp [allItemIds, currentIds, enqueuedIds, dispatchBatch_items]
          · simp [allItemIds, currentIds, enqueuedIds]
      | some b =>
          simp only [step]
          split
          · simp [allItemIds, currentIds, enqueuedIds, dispatchBatch_items,
              List.append_assoc]
          · simp [allItemIds, currentIds, enqueuedIds, List.append_assoc]
  | timerFire =>
      cases cur with
      | none => simp [step, enqueuedIds]
      | some b =>
          simp [step, allItemIds, currentIds, enqueuedIds, dispatchBatch_items]

theorem run_allItemIds {α β : Type} (cfg : Config) (pred : Predictor α β)
    (st : EngineState α β) (events : List (Event α)) :
    allItemIds (run cfg pred st events) = allItemIds st ++ enqueuedIds events := by
  induction events generalizing st with
  | nil => simp [run, enqueuedIds]
  | cons e es ih =>
      rw [run, ih, step_allItemIds, enqueuedIds_cons e es, List.append_assoc]

theorem run_fill {α β : Type} (cfg : Config) (pred : Predictor α β)
    (items acc : List (Item α)) (bid n : Nat) (closed : List (ClosedBatch α β))
    (hne : items ≠ [])
    (hlen : acc.length + items.length = cfg.maxBatchSize) :
    run cfg pred
        { nextId := n, current := some { id := bid, items := acc },
          closed := closed }
        (items.map Event.enqueue)
      = { nextId := n, current := none,
          closed := closed
            ++ [dispatchBatch pred { id := bid, items := acc ++ items }] } := by
  revert hne hlen
  induction items generalizing acc with
  | nil =>
      intro hne hlen
      exact absurd rfl hne
  | cons it rest ih =>
      intro hne hlen
      rw [List.map_cons, run]
      cases rest with
      | nil =>
          have hfull : (acc ++ [it]).length = cfg.maxBatchSize := by
            simpa using hlen
          simp only [step]
          rw [if_pos hfull]
          simp [run]
      | cons it2 rest2 =>
          have hlt : ¬((acc ++ [it]).length = cfg.maxBatchSize) := by
            simp only [List.length_append, List.length_cons,
              List.length_nil] at hlen ⊢
            omega
          simp only [step]
          rw [if_neg hlt]
          have hres := ih (acc ++ [it]) (by simp)
            (by
              simp only [List.length_append, List.length_cons,
                List.length_nil] at hlen ⊢
              omega)
          rw [hres, List.append_assoc]
          simp

theorem run_exact_fill {α β : Type} (cfg : Config) (pred : Predictor α β)
    (items : List (Item α)) (hne : items ≠ [])
    (hlen : items.length = cfg.maxBatchSize) :
    run cfg pred (initState α β) (items.map Event.enqueue)
      = { nextId := 1, current := none,
          closed := [dispatchBatch pred { id := 0, items := items }] } := by
  cases items with
  | nil => exact absurd rfl hne
  | cons it rest =>
      rw [List.map_cons, run]
      cases rest with
      | nil =>
          have hfull : ([it] : List (Item α)).length = cfg.maxBatchSize := hlen
          simp only [step, initState]
          rw [if_pos hfull]
          simp [run]
      | cons it2 rest2 =>
          have hlt : ¬(([it] : List (Item α)).length = cfg.maxBatchSize) := by
            simp only [List.length_cons, List.length_nil] at hlen ⊢
            omega
          simp only [step, initState]
          rw [if_neg hlt]
          have hres := run_fill cfg pred (it2 :: rest2) [it] 0 1 []
            (by simp)
            (by
              simp only [List.length_append, List.length_cons,
                List.length_nil] at hlen ⊢
              omega)
          rw [hres]
          simp

/-- C1: every delivery of a dispatched batch carries that batch's id,
whether a success or a failure, and two distinct dispatched batches of
one run never share an id. -/
theorem batch_id_contract {α β : Type} (cfg : Config) (pred : Predictor α β)
    (events : List (Event α)) (i j : Nat) (d : Delivery β)
    (hi : i < (run cfg pred (initState α β) events).closed.length)
    (hj : j < (run cfg pred (initState α β) events).closed.length)
    (hij : i ≠ j)
    (hd : d ∈ ((run cfg pred (initState α β) events).closed.get
      ⟨i, hi⟩).deliveries) :
    d.batchId = ((run cfg pred (initState α β) events).closed.get ⟨i, hi⟩).id
    ∧ ((run cfg pred (initState α β) events).closed.get ⟨i, hi⟩).id
      ≠ ((run cfg pred (initState α β) events).closed.get ⟨j, hj⟩).id := by
  have hclosed := closedInv_run cfg pred (initState α β) events
    (closedInv_init pred)
  have hid := idInv_run cfg pred (initState α β) events idInv_init
  constructor
  · have hb : (run cfg pred (initState α β) events).closed.get ⟨i, hi⟩
        ∈ (run cfg pred (initState α β) events).closed :=
      List.get_mem _ _ _
    have heq := hclosed _ hb
    rw [heq] at hd
    exact dispatchBatch_delivery_batchId pred _ d hd
  · have hpair : ((run cfg pred (initState α β) events).closed.map
        ClosedBatch.id).Pairwise (fun a b => a < b) := by
      have h1 := hid.1
      unfold batchIds at h1
      exact (List.pairwise_append.1 h1).1
    have hget := List.pairwise_iff_get.1 hpair
    have hi2 : i < ((run cfg pred (initState α β) events).closed.map
        ClosedBatch.id).length := by
      simpa using hi
    have hj2 : j < ((run cfg pred (initState α β) events).closed.map
        ClosedBatch.id).length := by
      simpa using hj
    have hmap : ∀ (k : Nat) (hk : k < (run cfg pred (initState α β)
        events).closed.length)
        (hk2 : k < ((run cfg pred (initState α β) events).closed.map
          ClosedBatch.id).length),
        ((run cfg pred (initState α β) events).closed.map
          ClosedBatch.id).get ⟨k, hk2⟩
          = ((run cfg pred (initState α β) events).closed.get ⟨k, hk⟩).id := by
      intro k hk hk2
      simp
    rcases Nat.lt_or_ge i j with hlt | hge
    · have hne := Nat.ne_of_lt (hget ⟨i, hi2⟩ ⟨j, hj2⟩ hlt)
      rw [hmap i hi hi2, hmap j hj hj2] at hne
      exact hne
    · have hlt2 : j < i := Nat.lt_of_le_of_ne hge (Ne.symm hij)
      have hne := Nat.ne_of_lt (hget ⟨j, hj2⟩ ⟨i, hi2⟩ hlt2)
      rw [hmap i hi hi2, hmap j hj hj2] at hne
      exact hne.symm

/-- C6: when the predictor call for a dispatched batch fails, every
item of that batch receives the same InferenceError carrying the
downstream message, tagged with the batch id, and no item of the batch
receives a success result. -/
theorem batch_atomic_failure {α β : Type} (cfg : Config) (pred : Predictor α β)
    (events : List (Event α)) (b : ClosedBatch α β) (msg : String)
    (hb : b ∈ (run cfg pred (initState α β) events).closed)
    (hfail : pred (b.items.map Item.payload) = Except.error msg) :
    (∀ d ∈ b.deliveries,
        d.outcome = Outcome.inferenceError msg ∧ d.batchId = b.id)
    ∧ ∀ d ∈ b.deliveries, ∀ r : β, d.outcome ≠ Outcome.success r := by
  have hclosed := closedInv_run cfg pred (initState α β) events
    (closedInv_init pred)
  have heq := hclosed b hb
  have hdel : b.deliveries = b.items.map (fun it =>
      { itemId := it.itemId, batchId := b.id,
        outcome := Outcome.inferenceError msg }) := by
    conv_lhs => rw [heq]
    exact dispatchBatch_error_deliveries pred { id := b.id, items := b.items }
      msg hfail
  constructor
  · intro d hd
    rw [hdel] at hd
    obtain ⟨x, hx, rfl⟩ := List.mem_map.1 hd
    exact ⟨rfl, rfl⟩
  · intro d hd r
    rw [hdel] at hd
    obtain ⟨x, hx, rfl⟩ := List.mem_map.1 hd
    simp

/-- C7: every dispatched batch resolves each of its items exactly once,
the delivered item ids being exactly the admitted item ids in order and
in number; and across the whole run the admitted item ids are exactly
those of the dispatched batches followed by those still waiting in the
open batch, so no item is dropped or duplicated. -/
theorem exactly_once_delivery {α β : Type} (cfg : Config) (pred : Predictor α β)
    (events : List (Event α)) (b : ClosedBatch α β)
    (hb : b ∈ (run cfg pred (initState α β) events).closed) :
    b.deliveries.map Delivery.itemId = b.items.map Item.itemId
    ∧ b.deliveries.length = b.items.length
    ∧ enqueuedIds events = allItemIds (run cfg pred (initState α β) events) := by
  have hclosed := closedInv_run cfg pred (initState α β) events
    (closedInv_init pred)
  have heq := hclosed b hb
  have h1 : b.deliveries.map Delivery.itemId = b.items.map Item.itemId := by
    conv_lhs => rw [heq]
    exact dispatchBatch_delivery_itemIds pred { id := b.id, items := b.items }
  refine ⟨h1, ?_, ?_⟩
  · have h2 := congrArg List.length h1
    simpa using h2
  · rw [run_allItemIds]
    simp [allItemIds, currentIds, initState]

/-- C2: 32 admissions against max_batch_size 32 and max_latency 5000
form exactly one batch whose dispatch delivers 32 responses, all
carrying the one batch id and all with status 200, given a predictor
answering each instance. -/
theorem e2e_single_batch_of_32 {α β : Type} (items : List (Item α)) (f : α → β)
    (h32 : items.length = 32) :
    (run { maxBatchSize := 32, maxLatency := 5000 }
        (fun xs => Except.ok (xs.map f)) (initState α β)
        (items.map Event.enqueue)).closed.length = 1
    ∧ (run { maxBatchSize := 32, maxLatency := 5000 }
        (fun xs => Except.ok (xs.map f)) (initState α β)
        (items.map Event.enqueue)).current = none
    ∧ ∀ b ∈ (run { maxBatchSize := 32, maxLatency := 5000 }
        (fun xs => Except.ok (xs.map f)) (initState α β)
        (items.map Event.enqueue)).closed,
        b.deliveries.length = 32
        ∧ ∀ d ∈ b.deliveries, d.batchId = b.id ∧ responseCode d = 200 := by
  have hne : items ≠ [] := by
    intro h
    rw [h] at h32
    simp at h32
  have hrun := run_exact_fill { maxBatchSize := 32, maxLatency := 5000 }
    (fun xs => Except.ok (xs.map f)) items hne h32
  rw [hrun]
  have hok : (fun xs => Except.ok (xs.map f) : Predictor α β)
      (({ id := 0, items := items } : OpenBatch α).items.map Item.payload)
      = Except.ok ((items.map Item.payload).map f) := rfl
  have hlen2 : ((items.map Item.payload).map f).length
      = ({ id := 0, items := items } : OpenBatch α).items.length := by
    simp
  have hdel := dispatchBatch_ok_deliveries
    (fun xs => Except.ok (xs.map f) : Predictor α β)
    { id := 0, items := items } ((items.map Item.payload).map f) hok hlen2
  refine ⟨rfl, rfl, ?_⟩
  intro b hb
  have hb2 := List.mem_singleton.1 hb
  subst hb2
  constructor
  · rw [hdel]
    rw [List.length_map, List.length_zip]
    simp [h32]
  · intro d hd
    constructor
    · have hid := dispatchBatch_delivery_batchId
        (fun xs => Except.ok (xs.map f) : Predictor α β)
        { id := 0, items := items } d hd
      rw [hid, dispatchBatch_id]
    · rw [hdel] at hd
      obtain ⟨x, hx, rfl⟩ := List.mem_map.1 hd
      rfl

/-- A concrete failed batch produced by a two-item run against an
always-failing predictor. -/
def failBatchW : ClosedBatch Nat Nat :=
  { id := 0, items := [⟨0, 1⟩, ⟨1, 2⟩],
    deliveries := [⟨0, 0, Outcome.inferenceError "boom"⟩,
      ⟨1, 0, Outcome.inferenceError "boom"⟩] }

/-- A concrete dispatched batch produced by a three-item run with
max_batch_size two against the identity predictor. -/
def okBatchW : ClosedBatch Nat Nat :=
  { id := 0, items := [⟨0, 1⟩, ⟨1, 2⟩],
    deliveries := [⟨0, 0, Outcome.success 1⟩, ⟨1, 0, Outcome.success 2⟩] }

/-- The 32 concrete items of the end-to-end scenario. -/
def itemsW : List (Item Nat) :=
  (List.range 32).map (fun i => Item.mk i i)

/-- Witness for C1 on a run producing two dispatched batches. -/
theorem batch_id_contract_witness :
    (Delivery.mk 0 0 (Outcome.success 5)).batchId
      = ((run ⟨1, 0⟩ (fun xs => Except.ok xs) (initState Nat Nat)
          [Event.enqueue ⟨0, 5⟩, Event.enqueue ⟨1, 6⟩]).closed.get
          ⟨0, by decide⟩).id
    ∧ ((run ⟨1, 0⟩ (fun xs => Except.ok xs) (initState Nat Nat)
          [Event.enqueue ⟨0, 5⟩, Event.enqueue ⟨1, 6⟩]).closed.get
          ⟨0, by decide⟩).id
      ≠ ((run ⟨1, 0⟩ (fun xs => Except.ok xs) (initState Nat Nat)
          [Event.enqueue ⟨0, 5⟩, Event.enqueue ⟨1, 6⟩]).closed.get
          ⟨1, by decide⟩).id :=
  batch_id_contract ⟨1, 0⟩ (fun xs => Except.ok xs)
    [Event.enqueue ⟨0, 5⟩, Event.enqueue ⟨1, 6⟩] 0 1
    (Delivery.mk 0 0 (Outcome.success 5)) (by decide) (by decide) (by decide)
    (by decide)

/-- Witness for C6 on a two-item batch whose predictor call fails. -/
theorem batch_atomic_failure_witness :
    (∀ d ∈ failBatchW.deliveries,
        d.outcome = Outcome.inferenceError "boom" ∧ d.batchId = failBatchW.id)
    ∧ ∀ d ∈ failBatchW.deliveries, ∀ r : Nat,
        d.outcome ≠ Outcome.success r :=
  batch_atomic_failure ⟨2, 0⟩ (fun _ => Except.error "boom")
    [Event.enqueue ⟨0, 1⟩, Event.enqueue ⟨1, 2⟩] failBatchW "boom"
    (by decide) rfl

/-- Witness for C7 on a three-item run leaving one item pending. -/
theorem exactly_once_delivery_witness :
    okBatchW.deliveries.map Delivery.itemId = okBatchW.items.map Item.itemId
    ∧ okBatchW.deliveries.length = okBatchW.items.length
    ∧ enqueuedIds [Event.enqueue (⟨0, 1⟩ : Item Nat), Event.enqueue ⟨1, 2⟩,
        Event.enqueue ⟨2, 3⟩]
      = allItemIds (run ⟨2, 0⟩ (fun xs => Except.ok xs) (initState Nat Nat)
          [Event.enqueue ⟨0, 1⟩, Event.enqueue ⟨1, 2⟩, Event.enqueue ⟨2, 3⟩]) :=
  exactly_once_delivery ⟨2, 0⟩ (fun xs => Except.ok xs)
    [Event.enqueue ⟨0, 1⟩, Event.enqueue ⟨1, 2⟩, Event.enqueue ⟨2, 3⟩]
    okBatchW (by decide)

/-- Witness for C2 on 32 concrete items. -/
theorem e2e_single_batch_of_32_witness :
    (run { maxBatchSize := 32, maxLatency := 5000 }
        (fun xs => Except.ok (xs.map id)) (initState Nat Nat)
        (itemsW.map Event.enqueue)).closed.length = 1
    ∧ (run { maxBatchSize := 32, maxLatency := 5000 }
        (fun xs => Except.ok (xs.map id)) (initState Nat Nat)
        (itemsW.map Event.enqueue)).current = none
    ∧ ∀ b ∈ (run { maxBatchSize := 32, maxLatency := 5000 }
        (fun xs => Except.ok (xs.map id)) (initState Nat Nat)
        (itemsW.map Event.enqueue)).closed,
        b.deliveries.length = 32
        ∧ ∀ d ∈ b.deliveries, d.batchId = b.id ∧ responseCode d = 200 :=
  e2e_single_batch_of_32 itemsW id (by decide)

end Batcher
